import Mathlib

/-
Verification of the workflow-orchestration core of the AIAgents repository:
the shared string-keyed workflow state, the RetryAgent retry loop
(src/agents/RetryAgent.py), the routers and edge table of build_graph
(src/main.py), and the coverage agent's threshold logic
(src/agents/coverage_checker.py).

Python dictionaries holding the workflow state are embedded as association
lists from string keys to a `Value` type covering the value shapes the
claims touch (strings and integers).  Steps that can raise are embedded as
functions returning `Except`; the attempt index is made explicit so that a
target's behaviour may differ between invocations, as a stateful Python
object's can.
-/

set_option autoImplicit false

namespace AIAgents

/-- A workflow-state value: the Python dicts in play hold strings and ints. -/
inductive Value where
  | str : String → Value
  | int : Int → Value
  deriving DecidableEq, Repr

/-- The workflow state: a Python dict embedded as an association list. -/
abbrev State := List (String × Value)

/-- `dict.get(key)`: first binding wins, absent key gives `none`. -/
def getVal : State → String → Option Value
  | [], _ => none
  | (k, v) :: rest, key => if k = key then some v else getVal rest key

/-- `dict[key] = v` / one entry of `dict.update`: replace in place or append. -/
def setKey : State → String → Value → State
  | [], key, v => [(key, v)]
  | (k, w) :: rest, key, v =>
      if k = key then (key, v) :: rest else (k, w) :: setKey rest key v

/-- How a Python f-string renders `state.get(key)`: `None` for an absent key. -/
def pyShow : Option Value → String
  | none => "None"
  | some (Value.str s) => s
  | some (Value.int n) => toString n

/-- Python truthiness test `if not x` on an optional state value. -/
def pyFalsy : Option Value → Bool
  | none => true
  | some (Value.str s) => s = ""
  | some (Value.int n) => n = 0

theorem getVal_setKey_self (s : State) (k : String) (v : Value) :
    getVal (setKey s k v) k = some v := by
  induction s with
  | nil => simp [setKey, getVal]
  | cons hd tl ih =>
      obtain ⟨k', v'⟩ := hd
      by_cases h : k' = k <;> simp [setKey, getVal, h, ih]

theorem getVal_setKey_ne (s : State) (k k' : String) (v : Value) (h : k' ≠ k) :
    getVal (setKey s k v) k' = getVal s k' := by
  induction s with
  | nil =>
      simp [setKey, getVal]
      exact fun hh => h hh.symm
  | cons hd tl ih =>
      obtain ⟨k0, v0⟩ := hd
      by_cases h0 : k0 = k
      · have hk : ¬ k = k' := fun hh => h hh.symm
        simp [setKey, getVal, h0, hk]
      · by_cases h1 : k0 = k' <;> simp [setKey, getVal, h0, h1, h, ih]

/-! ## RetryAgent (src/agents/RetryAgent.py)

`RetryAgent._run` is a `while attempt < max_retries` loop: each iteration
invokes the target once; an `Except.ok` result replaces the working state
and returns immediately when `state.get(failure_key) == success_value`;
an exception is swallowed and leaves the working state untouched.  After
the loop, `state.update({failure_key: "failed", "retry_status": ...})`.
The loop is embedded structurally on the number of remaining attempts;
the pair's second component counts target invocations. -/

/-- The retry loop from attempt `attempt` with `remaining` attempts left,
mirroring the body of `RetryAgent._run` lines 54-77. -/
def retryRunFrom (target : Nat → State → Except Unit State) (maxRetries : Nat)
    (failureKey : String) (successValue : Value) :
    Nat → Nat → State → State × Nat
  | _, 0, state =>
      (setKey (setKey state failureKey (Value.str "failed")) "retry_status"
          (Value.str ("Failed after " ++ toString maxRetries ++ " retries")), 0)
  | attempt, remaining + 1, state =>
      match target attempt state with
      | Except.ok s' =>
          if getVal s' failureKey = some successValue then
            (s', 1)
          else
            let rest := retryRunFrom target maxRetries failureKey successValue
                (attempt + 1) remaining s'
            (rest.1, rest.2 + 1)
      | Except.error _ =>
          let rest := retryRunFrom target maxRetries failureKey successValue
              (attempt + 1) remaining state
          (rest.1, rest.2 + 1)

/-- `RetryAgent._run`: run the loop from attempt 0 with `maxRetries`
attempts available; returns the final state and the invocation count. -/
def retryRun (target : Nat → State → Except Unit State) (maxRetries : Nat)
    (failureKey : String) (successValue : Value) (input : State) : State × Nat :=
  retryRunFrom target maxRetries failureKey successValue 0 maxRetries input

/-- The loop's working state before attempt `i`: the result of the most
recent non-raising invocation, or the original input if none completed. -/
def workState (target : Nat → State → Except Unit State) (s0 : State) : Nat → State
  | 0 => s0
  | i + 1 =>
      match target i (workState target s0 i) with
      | Except.ok s' => s'
      | Except.error _ => workState target s0 i

/-- Whether attempt `i` (0-based) completes and reports success. -/
def attemptSucceeds (target : Nat → State → Except Unit State)
    (failureKey : String) (successValue : Value) (s0 : State) (i : Nat) : Bool :=
  match target i (workState target s0 i) with
  | Except.ok s' => getVal s' failureKey = some successValue
  | Except.error _ => false

theorem retryRunFrom_ok_eq (target : Nat → State → Except Unit State)
    (m : Nat) (fk : String) (sv : Value) (a r : Nat) (s s' : State)
    (hh : target a s = Except.ok s') :
    retryRunFrom target m fk sv a (r + 1) s
      = if getVal s' fk = some sv then (s', 1)
        else ((retryRunFrom target m fk sv (a + 1) r s').1,
              (retryRunFrom target m fk sv (a + 1) r s').2 + 1) := by
  simp only [retryRunFrom]
  rw [hh]

theorem retryRunFrom_err_eq (target : Nat → State → Except Unit State)
    (m : Nat) (fk : String) (sv : Value) (a r : Nat) (s : State) (e : Unit)
    (hh : target a s = Except.error e) :
    retryRunFrom target m fk sv a (r + 1) s
      = ((retryRunFrom target m fk sv (a + 1) r s).1,
         (retryRunFrom target m fk sv (a + 1) r s).2 + 1) := by
  simp only [retryRunFrom]
  rw [hh]

theorem workState_succ_ok (target : Nat → State → Except Unit State)
    (s0 : State) (i : Nat) (s' : State)
    (hh : target i (workState target s0 i) = Except.ok s') :
    workState target s0 (i + 1) = s' := by
  simp only [workState]
  rw [hh]

theorem workState_succ_err (target : Nat → State → Except Unit State)
    (s0 : State) (i : Nat) (e : Unit)
    (hh : target i (workState target s0 i) = Except.error e) :
    workState target s0 (i + 1) = workState target s0 i := by
  simp only [workState]
  rw [hh]

theorem retryRunFrom_count_le (target : Nat → State → Except Unit State)
    (m : Nat) (fk : String) (sv : Value) :
    ∀ r a s, (retryRunFrom target m fk sv a r s).2 ≤ r := by
  intro r
  induction r with
  | zero => intro a s; simp [retryRunFrom]
  | succ r ih =>
      intro a s
      unfold retryRunFrom
      cases target a s with
      | ok s' =>
          by_cases h : getVal s' fk = some sv
          · simp [h]
          · simpa [h] using Nat.succ_le_succ (ih (a + 1) s')
      | error e => simpa using Nat.succ_le_succ (ih (a + 1) s)

/-- A failed attempt (non-success result or exception) advances the loop
to the next attempt, whose working state is `workState (a + 1)`. -/
theorem retryRunFrom_shift (target : Nat → State → Except Unit State)
    (m : Nat) (fk : String) (sv : Value) (s0 : State) (a r : Nat)
    (h : attemptSucceeds target fk sv s0 a = false) :
    retryRunFrom target m fk sv a (r + 1) (workState target s0 a)
      = ((retryRunFrom target m fk sv (a + 1) r (workState target s0 (a + 1))).1,
         (retryRunFrom target m fk sv (a + 1) r (workState target s0 (a + 1))).2 + 1) := by
  unfold attemptSucceeds at h
  cases hh : target a (workState target s0 a) with
  | ok s' =>
      rw [hh] at h
      simp only [decide_eq_false_iff_not] at h
      rw [retryRunFrom_ok_eq target m fk sv a r _ s' hh, if_neg h,
          workState_succ_ok target s0 a s' hh]
  | error e =>
      rw [retryRunFrom_err_eq target m fk sv a r _ e hh,
          workState_succ_err target s0 a e hh]

/-- A successful attempt returns its state immediately with one invocation. -/
theorem retryRunFrom_succ (target : Nat → State → Except Unit State)
    (m : Nat) (fk : String) (sv : Value) (s0 : State) (a r : Nat)
    (h : attemptSucceeds target fk sv s0 a = true) :
    retryRunFrom target m fk sv a (r + 1) (workState target s0 a)
      = (workState target s0 (a + 1), 1) := by
  unfold attemptSucceeds at h
  cases hh : target a (workState target s0 a) with
  | ok s' =>
      rw [hh] at h
      simp only [decide_eq_true_eq] at h
      rw [retryRunFrom_ok_eq target m fk sv a r _ s' hh, if_pos h,
          workState_succ_ok target s0 a s' hh]
  | error e => rw [hh] at h; exact absurd h (by simp)

/-- If every remaining attempt fails, the loop exhausts: the final state is
the last working state updated with the failure marker and retry message,
and every remaining attempt is invoked. -/
theorem retryRunFrom_exhaust (target : Nat → State → Except Unit State)
    (m : Nat) (fk : String) (sv : Value) (s0 : State) :
    ∀ r a, (∀ j, j < r → attemptSucceeds target fk sv s0 (a + j) = false) →
      retryRunFrom target m fk sv a r (workState target s0 a)
        = (setKey (setKey (workState target s0 (a + r)) fk (Value.str "failed"))
              "retry_status"
              (Value.str ("Failed after " ++ toString m ++ " retries")), r) := by
  intro r
  induction r with
  | zero => intro a _; simp [retryRunFrom]
  | succ r ih =>
      intro a h
      rw [retryRunFrom_shift target m fk sv s0 a r (h 0 (Nat.succ_pos r))]
      have := ih (a + 1) (fun j hj => by
        have := h (j + 1) (Nat.succ_lt_succ hj)
        simpa [Nat.add_assoc, Nat.add_comm 1 j] using this)
      rw [this]
      have harith : a + 1 + r = a + (r + 1) := by omega
      rw [harith]

/-- If attempts `a..a+i-1` fail and attempt `a+i` succeeds, the loop
returns attempt `a+i`'s state after exactly `i+1` invocations. -/
theorem retryRunFrom_firstSucc (target : Nat → State → Except Unit State)
    (m : Nat) (fk : String) (sv : Value) (s0 : State) :
    ∀ i r a, i < r →
      (∀ j, j < i → attemptSucceeds target fk sv s0 (a + j) = false) →
      attemptSucceeds target fk sv s0 (a + i) = true →
      retryRunFrom target m fk sv a r (workState target s0 a)
        = (workState target s0 (a + i + 1), i + 1) := by
  intro i
  induction i with
  | zero =>
      intro r a hr _ hs
      obtain ⟨r', rfl⟩ : ∃ r', r = r' + 1 := ⟨r - 1, by omega⟩
      simpa using retryRunFrom_succ target m fk sv s0 a r' (by simpa using hs)
  | succ i ih =>
      intro r a hr h hs
      obtain ⟨r', rfl⟩ : ∃ r', r = r' + 1 := ⟨r - 1, by omega⟩
      rw [retryRunFrom_shift target m fk sv s0 a r' (h 0 (Nat.succ_pos i))]
      have := ih r' (a + 1) (by omega)
        (fun j hj => by
          have := h (j + 1) (Nat.succ_lt_succ hj)
          simpa [Nat.add_assoc, Nat.add_comm 1 j] using this)
        (by
          have harith : a + 1 + i = a + (i + 1) := by omega
          rw [harith]; exact hs)
      rw [this]
      have harith : a + 1 + i + 1 = a + (i + 1) + 1 := by omega
      rw [harith]

/-- If the first `n` invocations all raise, the working state is still the
original input at attempt `n`. -/
theorem workState_of_errors (target : Nat → State → Except Unit State) (s0 : State) :
    ∀ n, (∀ i, i < n → target i s0 = Except.error ()) → workState target s0 n = s0 := by
  intro n
  induction n with
  | zero => intro _; rfl
  | succ n ih =>
      intro h
      have hn : workState target s0 n = s0 :=
        ih (fun i hi => h i (Nat.lt_succ_of_lt hi))
      rw [workState_succ_err target s0 n () (by rw [hn]; exact h n (Nat.lt_succ_self n)), hn]

/-! ## Routers and graph wiring (src/main.py, build_graph)

A Python router returns a node name or raises `ValueError`; raising is
embedded as `Except.error` carrying the exception's message. -/

/-- The `repo_check_router` closure in `build_graph` (main.py lines 95-101). -/
def repo_check_router (state : State) : Except String String :=
  if getVal state "repo_check_status" = some (Value.str "success") then
    Except.ok "clone_new_repo"
  else if getVal state "repo_check_status" = some (Value.str "branch_not_found")
      ∨ getVal state "repo_check_status" = some (Value.str "failed") then
    Except.ok "create_remote_repo"
  else
    Except.error ("Unknown repo_check_status: "
      ++ pyShow (getVal state "repo_check_status"))

/-- The `coverage_check_router` closure in `build_graph` (main.py lines
103-109); defined in the source but its conditional edge is commented out. -/
def coverage_check_router (state : State) : Except String String :=
  if getVal state "coverage_status" = some (Value.str "below_threshold")
      ∨ getVal state "coverage_status" = some (Value.str "failed") then
    Except.ok "generate_tests"
  else if getVal state "coverage_status" = some (Value.str "success") then
    Except.ok "generate_readme"
  else
    Except.error ("Unknown coverage_status: "
      ++ pyShow (getVal state "coverage_status"))

/-- The nodes added by `build_graph` (main.py lines 85-92). -/
inductive Node where
  | check_remote_repo
  | create_remote_repo
  | clone_new_repo
  | generate_code
  | generate_tests
  | check_coverage
  | generate_readme
  | git_commit_push
  deriving DecidableEq, Repr

/-- Resolve a router's returned node name to a registered node. -/
def nodeOfName : String → Option Node
  | "check_remote_repo" => some Node.check_remote_repo
  | "create_remote_repo" => some Node.create_remote_repo
  | "clone_new_repo" => some Node.clone_new_repo
  | "generate_code" => some Node.generate_code
  | "generate_tests" => some Node.generate_tests
  | "check_coverage" => some Node.check_coverage
  | "generate_readme" => some Node.generate_readme
  | "git_commit_push" => some Node.git_commit_push
  | _ => none

/-- The edge table of `build_graph` (main.py lines 111-122): the successor
of a node given the post-invocation state.  `Except.ok none` means the
finish point was reached; `Except.error` is an unroutable state.  Note the
conditional coverage edge is commented out in the source and replaced by
the static edge `check_coverage → generate_readme`. -/
def successor (n : Node) (state : State) : Except String (Option Node) :=
  match n with
  | Node.check_remote_repo =>
      match repo_check_router state with
      | Except.error msg => Except.error msg
      | Except.ok name =>
          match nodeOfName name with
          | some n' => Except.ok (some n')
          | none => Except.error ("Unknown node: " ++ name)
  | Node.create_remote_repo => Except.ok (some Node.clone_new_repo)
  | Node.clone_new_repo => Except.ok (some Node.generate_code)
  | Node.generate_code => Except.ok (some Node.generate_tests)
  | Node.generate_tests => Except.ok (some Node.check_coverage)
  | Node.check_coverage => Except.ok (some Node.generate_readme)
  | Node.generate_readme => Except.ok (some Node.git_commit_push)
  | Node.git_commit_push => Except.ok none

/-- Outcome of driving the compiled graph with bounded fuel. -/
inductive RunResult where
  | finished : State → RunResult
  | unroutable : String → RunResult
  | outOfFuel : RunResult
  deriving DecidableEq, Repr

/-- The graph engine: invoke the current node's step on the state, then
follow its (static or routed) edge, until the finish point or an
unroutable state.  Each unit of fuel pays for one step invocation. -/
def runGraph (stepF : Node → State → State) :
    Nat → Node → State → RunResult
  | 0, _, _ => RunResult.outOfFuel
  | fuel + 1, n, s =>
      let s' := stepF n s
      match successor n s' with
      | Except.error msg => RunResult.unroutable msg
      | Except.ok none => RunResult.finished s'
      | Except.ok (some n') => runGraph stepF fuel n' s'

/-- Topological position of each node in the (acyclic) edge table. -/
def nodeRank : Node → Nat
  | Node.check_remote_repo => 0
  | Node.create_remote_repo => 1
  | Node.clone_new_repo => 2
  | Node.generate_code => 3
  | Node.generate_tests => 4
  | Node.check_coverage => 5
  | Node.generate_readme => 6
  | Node.git_commit_push => 7

theorem nodeRank_le_seven (n : Node) : nodeRank n ≤ 7 := by
  cases n <;> simp [nodeRank]

/-- Every resolved edge strictly increases the node rank: the edge table
is acyclic. -/
theorem successor_rank_lt (n n' : Node) (s : State)
    (h : successor n s = Except.ok (some n')) : nodeRank n < nodeRank n' := by
  cases n <;> simp only [successor] at h
  case check_remote_repo =>
      unfold repo_check_router at h
      by_cases h1 : getVal s "repo_check_status" = some (Value.str "success")
      · rw [if_pos h1] at h
        simp [nodeOfName] at h
        simp [← h, nodeRank]
      · rw [if_neg h1] at h
        by_cases h2 : getVal s "repo_check_status" = some (Value.str "branch_not_found")
            ∨ getVal s "repo_check_status" = some (Value.str "failed")
        · rw [if_pos h2] at h
          simp [nodeOfName] at h
          simp [← h, nodeRank]
        · rw [if_neg h2] at h
          simp at h
  all_goals first
    | (injection h with h; injection h with h; simp [← h, nodeRank])
    | (exact absurd h (by simp))

/-- With fuel covering the remaining rank distance, the engine never runs
out of fuel: it reaches the finish point or aborts on an unroutable state. -/
theorem runGraph_ne_outOfFuel (stepF : Node → State → State) :
    ∀ fuel n s, 8 - nodeRank n ≤ fuel →
      runGraph stepF fuel n s ≠ RunResult.outOfFuel := by
  intro fuel
  induction fuel with
  | zero =>
      intro n s h
      have := nodeRank_le_seven n
      omega
  | succ fuel ih =>
      intro n s h
      simp only [runGraph]
      cases hsucc : successor n (stepF n s) with
      | error msg => simp
      | ok mn =>
          cases mn with
          | none => simp
          | some n' =>
              simp only
              have hrank := successor_rank_lt n n' (stepF n s) hsucc
              exact ih n' (stepF n s) (by omega)

/-! ## Coverage agent (src/agents/coverage_checker.py)

`GenerateCoverageAgent._run` shells out to pip and pytest and parses the
coverage percentage from the pytest output; those external effects are
abstracted as a single parameter `ext : Except String (Option Int)`:
`Except.error e` means the subprocess machinery raised an exception with
message `e`, `Except.ok none` means `_parse_coverage` found no percentage
in the output, and `Except.ok (some p)` means it parsed `p` percent. -/

/-- The threshold read at line 34, `state.get("coverage_threshold", 90)`,
as used by the comparison at line 63: `none` stands for the `TypeError`
raised when comparing an int against a non-int threshold value. -/
def coverageThreshold (state : State) : Option Int :=
  match getVal state "coverage_threshold" with
  | none => some 90
  | some (Value.int t) => some t
  | some (Value.str _) => none

/-- `GenerateCoverageAgent._run` (coverage_checker.py lines 21-83) with the
subprocess/parse effects abstracted as `ext`. -/
def coverageRun (ext : Except String (Option Int)) (state : State) : State :=
  if pyFalsy (getVal state "repo_path") then
    setKey (setKey state "coverage_status" (Value.str "failed"))
      "coverage_message" (Value.str "❌ Missing 'repo_path' in workflow state.")
  else
    match ext with
    | Except.error e =>
        setKey (setKey state "coverage_status" (Value.str "failed"))
          "coverage_message" (Value.str ("❌ Exception occurred: " ++ e))
    | Except.ok none =>
        setKey (setKey state "coverage_status" (Value.str "failed"))
          "coverage_message"
          (Value.str "⚠️ Could not determine code coverage from pytest output.")
    | Except.ok (some p) =>
        let st1 := setKey state "coverage_percent" (Value.int p)
        match coverageThreshold state with
        | none =>
            setKey (setKey st1 "coverage_status" (Value.str "failed"))
              "coverage_message"
              (Value.str "❌ Exception occurred: unsupported comparison")
        | some t =>
            if p ≥ t then
              setKey (setKey st1 "coverage_status" (Value.str "success"))
                "coverage_message"
                (Value.str ("✅ Code coverage " ++ toString p
                  ++ "% meets threshold " ++ toString t ++ "%."))
            else
              setKey (setKey st1 "coverage_status" (Value.str "below_threshold"))
                "coverage_message"
                (Value.str ("⚠️ Coverage " ++ toString p ++ "% is below threshold "
                  ++ toString t
                  ++ "%. No additional actions taken. Workflow should decide next step."))

/-- The driver's initial state dict (main.py lines 143-159). -/
def initial_state (username tok userEmail repoUrl branch newBranch newRepoName
    repoPath projectName moduleName codePrompt branchPre : String)
    (tddCoverage : Int) (diagramFormat codeStyle : String) : State :=
  [("username", Value.str username),
   ("token", Value.str tok),
   ("user_email", Value.str userEmail),
   ("repo_url", Value.str repoUrl),
   ("branch", Value.str branch),
   ("new_branch", Value.str newBranch),
   ("new_repo_name", Value.str newRepoName),
   ("repo_path", Value.str repoPath),
   ("project_name", Value.str projectName),
   ("module_name", Value.str moduleName),
   ("code_prompt", Value.str codePrompt),
   ("branch_prefix", Value.str branchPre),
   ("tdd_coverage", Value.int tddCoverage),
   ("diagram_format", Value.str diagramFormat),
   ("code_style", Value.str codeStyle)]

/-! ## Claim theorems -/

theorem workState_zero (target : Nat → State → Except Unit State) (s0 : State) :
    workState target s0 0 = s0 := rfl

theorem failedMsg_ne_empty (N : Nat) :
    ("Failed after " ++ toString N ++ " retries") ≠ "" := by
  intro hmp
  have h2 := congrArg String.length hmp
  rw [String.length_append, String.length_append] at h2
  have e1 : ("Failed after ").length = 13 := rfl
  have e2 : (" retries").length = 8 := rfl
  have e3 : ("" : String).length = 0 := rfl
  rw [e1, e2, e3] at h2
  omega

/-- C1: for every target step, every `max_retries` N and every input state,
`RetryAgent._run` invokes the target at most N times; and if attempts
1..k-1 do not succeed while the k-th invocation (1 ≤ k ≤ N) returns a
state whose `failure_key` entry equals `success_value`, then exactly k
invocations occur and that k-th state is returned immediately. -/
theorem retryAgent_retry_bound (target : Nat → State → Except Unit State)
    (N : Nat) (fk : String) (sv : Value) (s0 : State) :
    (retryRun target N fk sv s0).2 ≤ N ∧
    ∀ k, 1 ≤ k → k ≤ N →
      (∀ j, j + 1 < k → attemptSucceeds target fk sv s0 j = false) →
      attemptSucceeds target fk sv s0 (k - 1) = true →
      retryRun target N fk sv s0 = (workState target s0 k, k) := by
  constructor
  · exact retryRunFrom_count_le target N fk sv N 0 s0
  · intro k hk1 hkN hfail hsucc
    have h := retryRunFrom_firstSucc target N fk sv s0 (k - 1) N 0 (by omega)
      (fun j hj => by simpa using hfail j (by omega))
      (by simpa using hsucc)
    rw [workState_zero target s0] at h
    have e1 : 0 + (k - 1) + 1 = k := by omega
    have e2 : k - 1 + 1 = k := by omega
    rw [e1, e2] at h
    simpa [retryRun] using h

theorem retryAgent_retry_bound_witness :
    (retryRun (fun _ s => Except.ok (setKey s "status" (Value.str "success"))) 3
        "status" (Value.str "success") []).2 ≤ 3 ∧
    retryRun (fun _ s => Except.ok (setKey s "status" (Value.str "success"))) 3
        "status" (Value.str "success") []
      = (workState (fun _ s => Except.ok (setKey s "status" (Value.str "success"))) [] 1,
         1) := by
  refine ⟨(retryAgent_retry_bound _ 3 "status" (Value.str "success") []).1, ?_⟩
  exact (retryAgent_retry_bound _ 3 "status" (Value.str "success") []).2 1
    (by decide) (by decide) (fun j hj => absurd hj (by omega)) (by decide)

/-- C2: if no attempt within N succeeds, `RetryAgent._run` returns a state
whose `failure_key` entry is `"failed"` and whose `retry_status` entry is
a non-empty message mentioning N.  (The failure key is any key other than
`retry_status` itself, which the exhaustion update would overwrite.) -/
theorem retryAgent_failure_reporting (target : Nat → State → Except Unit State)
    (N : Nat) (fk : String) (sv : Value) (s0 : State)
    (hfk : fk ≠ "retry_status")
    (h : ∀ i, i < N → attemptSucceeds target fk sv s0 i = false) :
    getVal (retryRun target N fk sv s0).1 fk = some (Value.str "failed") ∧
    ∃ msg, getVal (retryRun target N fk sv s0).1 "retry_status" = some (Value.str msg) ∧
      msg ≠ "" ∧ ∃ pre post, msg = pre ++ toString N ++ post := by
  have hex := retryRunFrom_exhaust target N fk sv s0 N 0
    (fun j hj => by simpa using h j hj)
  rw [workState_zero target s0] at hex
  have hres : (retryRun target N fk sv s0).1
      = setKey (setKey (workState target s0 (0 + N)) fk (Value.str "failed"))
          "retry_status" (Value.str ("Failed after " ++ toString N ++ " retries")) := by
    simp only [retryRun, hex]
  constructor
  · rw [hres, getVal_setKey_ne _ _ _ _ hfk, getVal_setKey_self]
  · refine ⟨"Failed after " ++ toString N ++ " retries", ?_,
      failedMsg_ne_empty N, "Failed after ", " retries", rfl⟩
    rw [hres, getVal_setKey_self]

theorem retryAgent_failure_reporting_witness :
    getVal (retryRun (fun _ _ => (Except.error () : Except Unit State)) 2 "status"
        (Value.str "success") []).1 "status" = some (Value.str "failed") ∧
    ∃ msg, getVal (retryRun (fun _ _ => (Except.error () : Except Unit State)) 2 "status"
        (Value.str "success") []).1 "retry_status" = some (Value.str msg) ∧
      msg ≠ "" ∧ ∃ pre post, msg = pre ++ toString 2 ++ post :=
  retryAgent_failure_reporting _ 2 "status" (Value.str "success") []
    (by decide) (by decide)

/-- C3: with N ≥ 2, if the target raises on attempts 1..N-1 and on attempt
N returns a state whose `failure_key` entry equals `success_value`, then
`RetryAgent._run` returns that successful state (after exactly N
invocations); the per-attempt faults never propagate, as the embedded run
function is total. -/
theorem retryAgent_fault_tolerance (target : Nat → State → Except Unit State)
    (N : Nat) (fk : String) (sv : Value) (s0 s1 : State)
    (hN : 2 ≤ N)
    (hErr : ∀ i, i < N - 1 → target i s0 = Except.error ())
    (hOk : target (N - 1) s0 = Except.ok s1)
    (hSucc : getVal s1 fk = some sv) :
    retryRun target N fk sv s0 = (s1, N) := by
  have hws : ∀ i, i ≤ N - 1 → workState target s0 i = s0 := by
    intro i hi
    exact workState_of_errors target s0 i (fun j hj => hErr j (by omega))
  have hfail : ∀ j, j < N - 1 → attemptSucceeds target fk sv s0 j = false := by
    intro j hj
    unfold attemptSucceeds
    rw [hws j (by omega), hErr j hj]
  have hsucc : attemptSucceeds target fk sv s0 (N - 1) = true := by
    unfold attemptSucceeds
    rw [hws (N - 1) (le_refl _), hOk]
    simp [hSucc]
  have h := retryRunFrom_firstSucc target N fk sv s0 (N - 1) N 0 (by omega)
    (fun j hj => by simpa using hfail j hj) (by simpa using hsucc)
  have hwN : workState target s0 (0 + (N - 1) + 1) = s1 := by
    have e : 0 + (N - 1) + 1 = (N - 1) + 1 := by omega
    rw [e]
    exact workState_succ_ok target s0 (N - 1) s1
      (by rw [hws (N - 1) (le_refl _)]; exact hOk)
  rw [workState_zero target s0, hwN] at h
  have e2 : N - 1 + 1 = N := by omega
  rw [e2] at h
  simpa [retryRun] using h

theorem retryAgent_fault_tolerance_witness :
    retryRun
        (fun i _ => if i = 0 then (Except.error () : Except Unit State)
          else Except.ok [("status", Value.str "success")])
        2 "status" (Value.str "success") []
      = ([("status", Value.str "success")], 2) := by
  exact retryAgent_fault_tolerance _ 2 "status" (Value.str "success") []
    [("status", Value.str "success")] (by decide)
    (fun i hi => by have hi0 : i = 0 := by omega
                    rw [hi0]
                    rfl) (by rfl) (by decide)

/-- C4: `repo_check_router` maps `repo_check_status = "success"` to
`clone_new_repo`, `"branch_not_found"` or `"failed"` to
`create_remote_repo`, and any other value — including an absent key — to a
raised error naming the offending status value, never a default successor. -/
theorem repo_check_router_totality (s : State) :
    (getVal s "repo_check_status" = some (Value.str "success") →
       repo_check_router s = Except.ok "clone_new_repo") ∧
    ((getVal s "repo_check_status" = some (Value.str "branch_not_found") ∨
        getVal s "repo_check_status" = some (Value.str "failed")) →
       repo_check_router s = Except.ok "create_remote_repo") ∧
    (getVal s "repo_check_status" ≠ some (Value.str "success") →
     getVal s "repo_check_status" ≠ some (Value.str "branch_not_found") →
     getVal s "repo_check_status" ≠ some (Value.str "failed") →
       repo_check_router s = Except.error
         ("Unknown repo_check_status: " ++ pyShow (getVal s "repo_check_status"))) ∧
    (getVal s "repo_check_status" = none →
       repo_check_router s = Except.error "Unknown repo_check_status: None") := by
  refine ⟨?_, ?_, ?_, ?_⟩
  · intro h
    unfold repo_check_router
    rw [if_pos h]
  · intro h
    have hne : getVal s "repo_check_status" ≠ some (Value.str "success") := by
      rcases h with h | h <;> rw [h] <;> simp
    unfold repo_check_router
    rw [if_neg hne, if_pos h]
  · intro h1 h2 h3
    unfold repo_check_router
    rw [if_neg h1, if_neg (by tauto)]
  · intro h
    unfold repo_check_router
    rw [if_neg (by rw [h]; simp), if_neg (by rw [h]; simp), h]
    rfl

theorem repo_check_router_totality_witness :
    repo_check_router [("repo_check_status", Value.str "success")]
      = Except.ok "clone_new_repo" ∧
    repo_check_router [("repo_check_status", Value.str "bogus")]
      = Except.error ("Unknown repo_check_status: "
          ++ pyShow (getVal [("repo_check_status", Value.str "bogus")]
              "repo_check_status")) := by
  constructor
  · exact (repo_check_router_totality _).1 (by decide)
  · exact (repo_check_router_totality _).2.2.1 (by decide) (by decide) (by decide)

/-- C5: in the graph built by `build_graph`, the successor of
`check_coverage` is the static edge to `generate_readme` for every
post-invocation state, never `generate_tests`; the conditional
`coverage_check_router` — which would route a `below_threshold` state back
to `generate_tests` — is commented out of the graph. -/
theorem check_coverage_static_edge (s : State) :
    successor Node.check_coverage s = Except.ok (some Node.generate_readme) ∧
    successor Node.check_coverage s ≠ Except.ok (some Node.generate_tests) ∧
    coverage_check_router [("coverage_status", Value.str "below_threshold")]
      = Except.ok "generate_tests" := by
  refine ⟨rfl, ?_, by rfl⟩
  rw [show successor Node.check_coverage s
      = Except.ok (some Node.generate_readme) from rfl]
  simp

/-- C6 (amended): with `max_retries = 1` the target is invoked exactly
once and there is no retry, but `_run` is a pass-through only when that
single invocation reports success; otherwise the returned state is the
invocation's output (or the input, if it raised) further mutated with
`failure_key = "failed"` and a `retry_status` message. -/
theorem retry_single_attempt_behavior (target : Nat → State → Except Unit State)
    (fk : String) (sv : Value) (s0 : State) :
    (retryRun target 1 fk sv s0).2 = 1 ∧
    (∀ s1, target 0 s0 = Except.ok s1 → getVal s1 fk = some sv →
       retryRun target 1 fk sv s0 = (s1, 1)) ∧
    (∀ s1, target 0 s0 = Except.ok s1 → getVal s1 fk ≠ some sv →
       retryRun target 1 fk sv s0
         = (setKey (setKey s1 fk (Value.str "failed")) "retry_status"
              (Value.str ("Failed after " ++ toString 1 ++ " retries")), 1)) ∧
    (∀ e, target 0 s0 = Except.error e →
       retryRun target 1 fk sv s0
         = (setKey (setKey s0 fk (Value.str "failed")) "retry_status"
              (Value.str ("Failed after " ++ toString 1 ++ " retries")), 1)) := by
  refine ⟨?_, ?_, ?_, ?_⟩
  · cases hh : target 0 s0 with
    | ok s1 =>
        rw [show retryRun target 1 fk sv s0
            = retryRunFrom target 1 fk sv 0 1 s0 from rfl,
          retryRunFrom_ok_eq target 1 fk sv 0 0 s0 s1 hh]
        by_cases hs : getVal s1 fk = some sv
        · rw [if_pos hs]
        · rw [if_neg hs]
          simp [retryRunFrom]
    | error e =>
        rw [show retryRun target 1 fk sv s0
            = retryRunFrom target 1 fk sv 0 1 s0 from rfl,
          retryRunFrom_err_eq target 1 fk sv 0 0 s0 e hh]
        simp [retryRunFrom]
  · intro s1 hh hs
    rw [show retryRun target 1 fk sv s0
        = retryRunFrom target 1 fk sv 0 1 s0 from rfl,
      retryRunFrom_ok_eq target 1 fk sv 0 0 s0 s1 hh, if_pos hs]
  · intro s1 hh hs
    rw [show retryRun target 1 fk sv s0
        = retryRunFrom target 1 fk sv 0 1 s0 from rfl,
      retryRunFrom_ok_eq target 1 fk sv 0 0 s0 s1 hh, if_neg hs]
    simp [retryRunFrom]
  · intro e hh
    rw [show retryRun target 1 fk sv s0
        = retryRunFrom target 1 fk sv 0 1 s0 from rfl,
      retryRunFrom_err_eq target 1 fk sv 0 0 s0 e hh]
    simp [retryRunFrom]

theorem retry_single_attempt_behavior_witness :
    retryRun (fun _ _ => (Except.error () : Except Unit State)) 1 "status"
        (Value.str "success") []
      = (setKey (setKey [] "status" (Value.str "failed")) "retry_status"
           (Value.str ("Failed after " ++ toString 1 ++ " retries")), 1) :=
  (retry_single_attempt_behavior (fun _ _ => Except.error ()) "status"
    (Value.str "success") []).2.2.2 () rfl

/-- C6 (counterexample to the claim as stated): with `max_retries = 1` and
a target that returns a state not marked successful, `_run` does not
return the target's state unchanged — the exhaustion update mutates it. -/
theorem retry_passthrough_cex :
    (retryRun (fun _ _ => Except.ok ([] : State)) 1 "status" (Value.str "success")
        []).1 ≠ ([] : State) := by
  decide

/-- C7: for every assignment of step outcomes, driving the compiled graph
from the entry node `check_remote_repo` with fuel for 8 step invocations
either reaches the finish point `git_commit_push` or aborts on an
unroutable state — the engine never runs out of fuel, i.e. never loops. -/
theorem graph_reaches_terminal (stepF : Node → State → State) (s0 : State) :
    (∃ sf, runGraph stepF 8 Node.check_remote_repo s0 = RunResult.finished sf) ∨
    (∃ msg, runGraph stepF 8 Node.check_remote_repo s0 = RunResult.unroutable msg) := by
  have h := runGraph_ne_outOfFuel stepF 8 Node.check_remote_repo s0 (by simp [nodeRank])
  cases hr : runGraph stepF 8 Node.check_remote_repo s0 with
  | finished sf => exact Or.inl ⟨sf, rfl⟩
  | unroutable msg => exact Or.inr ⟨msg, rfl⟩
  | outOfFuel => exact absurd hr h

/-- C8: when all attempts are exhausted, the final update touches only the
`failure_key` and `retry_status` entries: every other key reads the same
as in the working state left by the last completed invocation (`workState`
after N attempts, the input state itself if every invocation raised). -/
theorem retryAgent_exhaustion_frame (target : Nat → State → Except Unit State)
    (N : Nat) (fk : String) (sv : Value) (s0 : State)
    (h : ∀ i, i < N → attemptSucceeds target fk sv s0 i = false) :
    ∀ k, k ≠ fk → k ≠ "retry_status" →
      getVal (retryRun target N fk sv s0).1 k = getVal (workState target s0 N) k := by
  intro k h1 h2
  have hex := retryRunFrom_exhaust target N fk sv s0 N 0
    (fun j hj => by simpa using h j hj)
  rw [workState_zero target s0] at hex
  have e : 0 + N = N := by omega
  rw [e] at hex
  rw [show retryRun target N fk sv s0 = retryRunFrom target N fk sv 0 N s0 from rfl,
    hex]
  rw [getVal_setKey_ne _ _ _ _ h2, getVal_setKey_ne _ _ _ _ h1]

theorem retryAgent_exhaustion_frame_witness :
    getVal (retryRun (fun _ _ => (Except.error () : Except Unit State)) 1 "status"
        (Value.str "success") [("x", Value.int 5)]).1 "x"
      = getVal (workState (fun _ _ => (Except.error () : Except Unit State))
          [("x", Value.int 5)] 1) "x" :=
  retryAgent_exhaustion_frame _ 1 "status" (Value.str "success") _
    (by decide) "x" (by decide) (by decide)

/-- C9: an attempt whose invocation raises leaves the working state
unchanged — the next attempt (and the exhaustion update) runs on the state
of the most recent non-raising invocation, and on the original input when
every invocation so far raised. -/
theorem retryAgent_exception_preserves_state
    (target : Nat → State → Except Unit State) (m : Nat) (fk : String) (sv : Value)
    (s0 : State) :
    (∀ a r e, target a (workState target s0 a) = Except.error e →
        workState target s0 (a + 1) = workState target s0 a ∧
        retryRunFrom target m fk sv a (r + 1) (workState target s0 a)
          = ((retryRunFrom target m fk sv (a + 1) r (workState target s0 a)).1,
             (retryRunFrom target m fk sv (a + 1) r (workState target s0 a)).2 + 1)) ∧
    (∀ n, (∀ i, i < n → target i s0 = Except.error ()) →
        workState target s0 n = s0) := by
  constructor
  · intro a r e hh
    have hw := workState_succ_err target s0 a e hh
    refine ⟨hw, ?_⟩
    have := retryRunFrom_err_eq target m fk sv a r (workState target s0 a) e hh
    exact this
  · exact workState_of_errors target s0

theorem retryAgent_exception_preserves_state_witness :
    workState (fun _ _ => (Except.error () : Except Unit State)) [("x", Value.int 1)] 1
        = [("x", Value.int 1)] ∧
    retryRunFrom (fun _ _ => (Except.error () : Except Unit State)) 2 "status"
        (Value.str "success") 0 2 [("x", Value.int 1)]
      = ((retryRunFrom (fun _ _ => (Except.error () : Except Unit State)) 2 "status"
            (Value.str "success") 1 1 [("x", Value.int 1)]).1,
         (retryRunFrom (fun _ _ => (Except.error () : Except Unit State)) 2 "status"
            (Value.str "success") 1 1 [("x", Value.int 1)]).2 + 1) := by
  have h := retryAgent_exception_preserves_state
    (fun _ _ => (Except.error () : Except Unit State)) 2 "status" (Value.str "success")
    [("x", Value.int 1)]
  refine ⟨h.2 1 (fun i _ => rfl), ?_⟩
  have h2 := (h.1 0 1 () rfl).2
  simpa using h2

/-- C10: `GenerateCoverageAgent._run` takes its threshold from the
`coverage_threshold` key with default 90 — not from `tdd_coverage` — so on
any state lacking `coverage_threshold` (the driver's initial state lacks
it), `coverage_status` becomes `"success"` iff the parsed coverage
percentage is at least 90, whatever `tdd_coverage` holds. -/
theorem coverage_threshold_default_90 (s : State) (p : Int)
    (hthr : getVal s "coverage_threshold" = none)
    (hpath : pyFalsy (getVal s "repo_path") = false) :
    (getVal (coverageRun (Except.ok (some p)) s) "coverage_status"
        = some (Value.str "success") ↔ 90 ≤ p) ∧
    coverageThreshold s = some 90 ∧
    (∀ (u tk em ru br nb nr rp pn mn cp bp : String) (tc : Int) (df cs : String),
       getVal (initial_state u tk em ru br nb nr rp pn mn cp bp tc df cs)
           "coverage_threshold" = none) := by
  have hct : coverageThreshold s = some 90 := by
    unfold coverageThreshold
    rw [hthr]
  refine ⟨?_, hct, fun u tk em ru br nb nr rp pn mn cp bp tc df cs => rfl⟩
  unfold coverageRun
  rw [hpath]
  simp only [Bool.false_eq_true, if_false]
  rw [hct]
  split
  next heq => exact absurd heq (by simp)
  next t heq =>
      have ht : t = 90 := by
        injection heq with hinj
        omega
      subst ht
      by_cases hp : p ≥ (90 : Int)
      · rw [if_pos hp]
        rw [getVal_setKey_ne _ _ _ _ (by decide), getVal_setKey_self]
        exact ⟨fun _ => hp, fun _ => rfl⟩
      · rw [if_neg hp]
        rw [getVal_setKey_ne _ _ _ _ (by decide), getVal_setKey_self]
        constructor
        · intro hcontra
          exact absurd hcontra (by simp)
        · intro hcontra
          exact absurd hcontra hp

theorem coverage_threshold_default_90_witness :
    (getVal (coverageRun (Except.ok (some 95)) [("repo_path", Value.str "/tmp/repo"),
        ("tdd_coverage", Value.int 50)]) "coverage_status"
      = some (Value.str "success") ↔ (90 : Int) ≤ 95) ∧
    coverageThreshold [("repo_path", Value.str "/tmp/repo"),
        ("tdd_coverage", Value.int 50)] = some 90 :=
  ⟨(coverage_threshold_default_90 _ 95 (by decide) (by decide)).1,
   (coverage_threshold_default_90 _ 95 (by decide) (by decide)).2.1⟩

end AIAgents
